import Mathlib

/-
Verification of the step-invalidation engine, validator checks, skirt builder
and wipe-tower planner of libslic3r's Print.cpp, as a shallow embedding.
-/

namespace Slic3r

/-- Status of one pipeline step, `PrintStateBase::State` (INVALID / STARTED / DONE). -/
inductive StepStatus
  | Invalidated
  | Started
  | Done
deriving DecidableEq, Repr

/-- Modelled from the spec: the `PrintStep` enumeration of job-level steps is declared
in Print.hpp, outside this file; Print.cpp uses the constants
psWipeTower, psAlertWhenSupportsNeeded, psSkirtBrim, psGCodeExport. -/
inductive PrintStep
  | psWipeTower
  | psAlertWhenSupportsNeeded
  | psSkirtBrim
  | psGCodeExport
deriving DecidableEq, Repr

/-- Modelled from the spec: the `PrintObjectStep` enumeration of entity-level steps is
declared in Print.hpp, outside this file; Print.cpp uses posSlice, posPerimeters,
posInfill, posSupportMaterial, posEstimateCurledExtrusions. -/
inductive PrintObjectStep
  | posSlice
  | posPerimeters
  | posPrepareInfill
  | posInfill
  | posIroning
  | posSupportSpotsSearch
  | posSupportMaterial
  | posEstimateCurledExtrusions
deriving DecidableEq, Repr

/-- The job-level steps in enumeration (declaration) order. -/
def allPrintSteps : List PrintStep :=
  [.psWipeTower, .psAlertWhenSupportsNeeded, .psSkirtBrim, .psGCodeExport]

/-- The entity-level steps in enumeration (declaration) order. -/
def allPrintObjectSteps : List PrintObjectStep :=
  [.posSlice, .posPerimeters, .posPrepareInfill, .posInfill, .posIroning,
   .posSupportSpotsSearch, .posSupportMaterial, .posEstimateCurledExtrusions]

/-- Modelled from the spec: `PrintState::invalidate` of PrintBase.hpp is outside this
file; per the StepGraph contract (spec section 4.1) it sets the step to Invalidated and
returns whether that changed anything (invalidating an already-Invalidated step is a
no-op returning "unchanged"). -/
def PrintState.invalidate (ps : PrintStep → StepStatus) (step : PrintStep) :
    (PrintStep → StepStatus) × Bool :=
  (fun p => if p = step then StepStatus.Invalidated else ps p,
   decide (ps step ≠ StepStatus.Invalidated))

/-- The mutable step state of the job: the Print's own per-step status plus the
per-step status of each PrintObject (one entry per object of `m_objects`). -/
structure PrintJobState where
  printState : PrintStep → StepStatus
  objectStates : List (PrintObjectStep → StepStatus)

/-- True when some job-level step is not Invalidated. -/
def anyNonInvalid (st : PrintJobState) : Bool :=
  allPrintSteps.any fun p => decide (st.printState p ≠ StepStatus.Invalidated)

/-- Modelled from the spec: `PrintBase::invalidate_all_steps` is outside this file; it
resets every step of the Print's own state to Invalidated and returns whether anything
changed. Its call site in `Print::invalidate_state_by_config_options` carries the
comment "FIXME invalidate all steps of all objects as well?", which shows the
PrintObject step states are not touched by this call. -/
def invalidate_all_steps (st : PrintJobState) : PrintJobState × Bool :=
  (⟨fun _ => StepStatus.Invalidated, st.objectStates⟩, anyNonInvalid st)

/-- `Print::invalidate_step`: invalidate the given job-level step and, when it is not
the final G-code export step, propagate the invalidation to psGCodeExport. -/
def Print.invalidate_step (ps : PrintStep → StepStatus) (step : PrintStep) :
    (PrintStep → StepStatus) × Bool :=
  let r1 := PrintState.invalidate ps step
  if step ≠ PrintStep.psGCodeExport then
    let r2 := PrintState.invalidate r1.1 PrintStep.psGCodeExport
    (r2.1, r1.2 || r2.2)
  else
    r1

/-- Modelled from the spec: `PrintObject::invalidate_step` lives in PrintObject.cpp,
outside this file. Per the StepGraph contract (spec section 4.1) it marks the entity's
step Invalidated without cascading to sibling entities, and by the cascade rule the
job's final export step is invalidated as well; it returns whether anything changed. -/
def PrintObject.invalidate_step (st : PrintJobState) (i : ℕ) (ostep : PrintObjectStep) :
    PrintJobState × Bool :=
  let obj := st.objectStates.getD i (fun _ => StepStatus.Invalidated)
  let changed := decide (obj ostep ≠ StepStatus.Invalidated)
        || decide (st.printState PrintStep.psGCodeExport ≠ StepStatus.Invalidated)
  (⟨fun p => if p = PrintStep.psGCodeExport then StepStatus.Invalidated else st.printState p,
    st.objectStates.set i (fun p => if p = ostep then StepStatus.Invalidated else obj p)⟩,
   changed)

/-- `Print::is_step_done(PrintObjectStep)`: true when the job has at least one object
and the step is Done on all of them (the empty job is never done). -/
def Print.is_step_done (st : PrintJobState) (step : PrintObjectStep) : Bool :=
  if st.objectStates.isEmpty then false
  else st.objectStates.all fun o => decide (o step = StepStatus.Done)

/-- The `steps_gcode` set of `Print::invalidate_state_by_config_options`: keys that
only influence the G-code generator (or are mere notes), so only export is stale. -/
def steps_gcode : List String :=
  ["autoemit_temperature_commands",
   "avoid_crossing_perimeters",
   "avoid_crossing_perimeters_max_detour",
   "bed_shape",
   "bed_temperature",
   "before_layer_gcode",
   "between_objects_gcode",
   "bridge_acceleration",
   "bridge_fan_speed",
   "enable_dynamic_fan_speeds",
   "overhang_fan_speed_0",
   "overhang_fan_speed_1",
   "overhang_fan_speed_2",
   "overhang_fan_speed_3",
   "colorprint_heights",
   "cooling",
   "default_acceleration",
   "deretract_speed",
   "disable_fan_first_layers",
   "duplicate_distance",
   "end_gcode",
   "end_filament_gcode",
   "external_perimeter_acceleration",
   "extrusion_axis",
   "extruder_clearance_height",
   "extruder_clearance_radius",
   "extruder_colour",
   "extruder_offset",
   "extrusion_multiplier",
   "fan_always_on",
   "fan_below_layer_time",
   "full_fan_speed_layer",
   "filament_colour",
   "filament_diameter",
   "filament_density",
   "filament_notes",
   "filament_cost",
   "filament_spool_weight",
   "first_layer_acceleration",
   "first_layer_acceleration_over_raft",
   "first_layer_bed_temperature",
   "first_layer_speed_over_raft",
   "gcode_comments",
   "gcode_label_objects",
   "infill_acceleration",
   "layer_gcode",
   "min_fan_speed",
   "max_fan_speed",
   "max_print_height",
   "min_print_speed",
   "max_print_speed",
   "max_volumetric_speed",
   "max_volumetric_extrusion_rate_slope_positive",
   "max_volumetric_extrusion_rate_slope_negative",
   "notes",
   "only_retract_when_crossing_perimeters",
   "output_filename_format",
   "perimeter_acceleration",
   "post_process",
   "gcode_substitutions",
   "printer_notes",
   "retract_before_travel",
   "retract_before_wipe",
   "retract_layer_change",
   "retract_length",
   "retract_length_toolchange",
   "retract_lift",
   "retract_lift_above",
   "retract_lift_below",
   "retract_restart_extra",
   "retract_restart_extra_toolchange",
   "retract_speed",
   "single_extruder_multi_material_priming",
   "slowdown_below_layer_time",
   "solid_infill_acceleration",
   "standby_temperature_delta",
   "start_gcode",
   "start_filament_gcode",
   "toolchange_gcode",
   "top_solid_infill_acceleration",
   "travel_acceleration",
   "thumbnails",
   "thumbnails_format",
   "use_firmware_retraction",
   "use_relative_e_distances",
   "use_volumetric_e",
   "variable_layer_height",
   "wipe"]

/-- The `steps_ignore` set: keys with no influence on the G-code whatsoever (empty). -/
def steps_ignore : List String := []

/-- The per-key branch of the classification loop of
`Print::invalidate_state_by_config_options`: which job-level steps and entity-level
steps a recognized key appends to `steps` / `osteps`; `none` for the final legacy
fallback branch (an unknown key, handled by `invalidate_all_steps`). -/
def classify_key (opt_key : String) : Option (List PrintStep × List PrintObjectStep) :=
  if steps_gcode.contains opt_key then
    some ([PrintStep.psGCodeExport], [])
  else if steps_ignore.contains opt_key then
    some ([], [])
  else if opt_key = "skirts"
      ∨ opt_key = "skirt_height"
      ∨ opt_key = "draft_shield"
      ∨ opt_key = "skirt_distance"
      ∨ opt_key = "min_skirt_length"
      ∨ opt_key = "ooze_prevention"
      ∨ opt_key = "wipe_tower_x"
      ∨ opt_key = "wipe_tower_y"
      ∨ opt_key = "wipe_tower_rotation_angle" then
    some ([PrintStep.psSkirtBrim], [])
  else if opt_key = "first_layer_height"
      ∨ opt_key = "nozzle_diameter"
      ∨ opt_key = "resolution"
      ∨ opt_key = "spiral_vase" then
    some ([], [PrintObjectStep.posSlice])
  else if opt_key = "complete_objects"
      ∨ opt_key = "filament_type"
      ∨ opt_key = "first_layer_temperature"
      ∨ opt_key = "filament_loading_speed"
      ∨ opt_key = "filament_loading_speed_start"
      ∨ opt_key = "filament_unloading_speed"
      ∨ opt_key = "filament_unloading_speed_start"
      ∨ opt_key = "filament_toolchange_delay"
      ∨ opt_key = "filament_cooling_moves"
      ∨ opt_key = "filament_minimal_purge_on_wipe_tower"
      ∨ opt_key = "filament_cooling_initial_speed"
      ∨ opt_key = "filament_cooling_final_speed"
      ∨ opt_key = "filament_ramming_parameters"
      ∨ opt_key = "filament_max_volumetric_speed"
      ∨ opt_key = "gcode_flavor"
      ∨ opt_key = "high_current_on_filament_swap"
      ∨ opt_key = "infill_first"
      ∨ opt_key = "single_extruder_multi_material"
      ∨ opt_key = "temperature"
      ∨ opt_key = "idle_temperature"
      ∨ opt_key = "wipe_tower"
      ∨ opt_key = "wipe_tower_width"
      ∨ opt_key = "wipe_tower_brim_width"
      ∨ opt_key = "wipe_tower_cone_angle"
      ∨ opt_key = "wipe_tower_bridging"
      ∨ opt_key = "wipe_tower_extra_spacing"
      ∨ opt_key = "wipe_tower_no_sparse_layers"
      ∨ opt_key = "wiping_volumes_matrix"
      ∨ opt_key = "parking_pos_retraction"
      ∨ opt_key = "cooling_tube_retraction"
      ∨ opt_key = "cooling_tube_length"
      ∨ opt_key = "extra_loading_move"
      ∨ opt_key = "travel_speed"
      ∨ opt_key = "travel_speed_z"
      ∨ opt_key = "first_layer_speed"
      ∨ opt_key = "z_offset" then
    some ([PrintStep.psWipeTower, PrintStep.psSkirtBrim], [])
  else if opt_key = "filament_soluble" then
    some ([PrintStep.psWipeTower], [PrintObjectStep.posSupportMaterial])
  else if opt_key = "first_layer_extrusion_width"
      ∨ opt_key = "min_layer_height"
      ∨ opt_key = "max_layer_height"
      ∨ opt_key = "gcode_resolution" then
    some ([PrintStep.psSkirtBrim],
          [PrintObjectStep.posPerimeters, PrintObjectStep.posInfill,
           PrintObjectStep.posSupportMaterial])
  else if opt_key = "avoid_crossing_curled_overhangs" then
    some ([], [PrintObjectStep.posEstimateCurledExtrusions])
  else
    none

/-- Job-level steps a key contributes to the `steps` vector (empty for unknown keys). -/
def key_steps (k : String) : List PrintStep :=
  match classify_key k with
  | some so => so.1
  | none => []

/-- Entity-level steps a key contributes to the `osteps` vector. -/
def key_osteps (k : String) : List PrintObjectStep :=
  match classify_key k with
  | some so => so.2
  | none => []

/-- Whether a key falls into the legacy fallback branch (unrecognized). -/
def key_unknown (k : String) : Bool :=
  (classify_key k).isNone

/-- `sort_remove_duplicates` on the `steps` vector: sorts by enumeration order and
drops duplicates; on a small enumeration this equals filtering the ordered
enumeration by membership. -/
def sort_remove_duplicates (l : List PrintStep) : List PrintStep :=
  allPrintSteps.filter fun s => decide (s ∈ l)

/-- `sort_remove_duplicates` on the `osteps` vector. -/
def sort_remove_duplicates_ostep (l : List PrintObjectStep) : List PrintObjectStep :=
  allPrintObjectSteps.filter fun s => decide (s ∈ l)

/-- Accumulator of the classification loop over `opt_keys`: the pending `steps` and
`osteps` vectors, the job state (mutated in place by the unknown-key fallback) and the
`invalidated` flag. -/
structure ClassAcc where
  steps : List PrintStep
  osteps : List PrintObjectStep
  st : PrintJobState
  invalidated : Bool

/-- The classification loop of `Print::invalidate_state_by_config_options`: recognized
keys append their step sets; an unknown key invalidates all job-level steps at once. -/
def classify_fold (acc : ClassAcc) : List String → ClassAcc
  | [] => acc
  | k :: ks =>
    match classify_key k with
    | some so =>
        classify_fold { acc with steps := acc.steps ++ so.1, osteps := acc.osteps ++ so.2 } ks
    | none =>
        let r := invalidate_all_steps acc.st
        classify_fold { acc with st := r.1, invalidated := acc.invalidated || r.2 } ks

/-- Application of one deduplicated job-level step through `Print::invalidate_step`. -/
def apply_print_step (a : PrintJobState × Bool) (step : PrintStep) : PrintJobState × Bool :=
  let r := Print.invalidate_step a.1.printState step
  (⟨r.1, a.1.objectStates⟩, a.2 || r.2)

/-- Application of one deduplicated entity-level step to every object in order
(`for (PrintObject *object : m_objects) object->invalidate_step(ostep)`). -/
def apply_object_step (a : PrintJobState × Bool) (ostep : PrintObjectStep) :
    PrintJobState × Bool :=
  (List.range a.1.objectStates.length).foldl
    (fun b i =>
      let r := PrintObject.invalidate_step b.1 i ostep
      (r.1, b.2 || r.2))
    a

/-- `Print::invalidate_state_by_config_options`: classify the changed keys, then apply
the deduplicated job-level steps and entity-level steps, returning the new state and
whether anything was invalidated. -/
def invalidate_state_by_config_options (st : PrintJobState) (opt_keys : List String) :
    PrintJobState × Bool :=
  if opt_keys.isEmpty then (st, false)
  else
    let acc := classify_fold ⟨[], [], st, false⟩ opt_keys
    let r1 := (sort_remove_duplicates acc.steps).foldl apply_print_step (acc.st, acc.invalidated)
    (sort_remove_duplicates_ostep acc.osteps).foldl apply_object_step r1

/-! Wipe tower planning (`Print::has_wipe_tower`, `Print::_make_wipe_tower`) and the
wipe-tower precondition block of `Print::validate`. Volumes, heights and diameters are
modelled as rationals. -/

/-- The G-code dialects distinguished by `Print::validate`. -/
inductive GCodeFlavor
  | gcfRepRapSprinter
  | gcfRepRapFirmware
  | gcfRepetier
  | gcfTeacup
  | gcfMakerWare
  | gcfMarlinLegacy
  | gcfMarlinFirmware
  | gcfKlipper
  | gcfSailfish
  | gcfMach3
  | gcfMachinekit
  | gcfSmoothie
  | gcfNoExtrusion
deriving DecidableEq, Repr

/-- The slice of `PrintConfig` read by the functions embedded here. -/
structure PrintConfig where
  spiral_vase : Bool
  wipe_tower : Bool
  nozzle_diameter : List ℚ
  filament_diameter : List ℚ
  filament_minimal_purge_on_wipe_tower : List ℚ
  gcode_flavor : GCodeFlavor
  use_relative_e_distances : Bool
  ooze_prevention : Bool
  single_extruder_multi_material : Bool
  use_volumetric_e : Bool
  complete_objects : Bool

/-- Modelled from the spec: `ConfigOptionVector::get_at` is declared outside this
file; an in-range index reads the element, an out-of-range index falls back to the
front element, and an empty vector yields zero. -/
def get_at (l : List ℚ) (i : ℕ) : ℚ :=
  if i < l.length then l.getD i 0 else l.headD 0

/-- `EPSILON` of libslic3r (1e-4). -/
def EPSILON : ℚ := 1 / 10000

/-- `Print::has_wipe_tower`: spiral vase off, the wipe-tower option on, and more than
one configured nozzle diameter. -/
def Print.has_wipe_tower (c : PrintConfig) : Bool :=
  !c.spiral_vase && c.wipe_tower && decide (1 < c.nozzle_diameter.length)

/-- The errors of the wipe-tower precondition block of `Print::validate`
(lines 544-569): one tag per distinct message. -/
inductive WipeTowerCheckError
  | NonUniformDiameters
  | UnsupportedFlavor
  | AbsoluteExtruderAddressing
  | OozePreventionWithSEMM
  | VolumetricE
  | SequentialMultiMaterial
deriving DecidableEq, Repr

/-- The wipe-tower precondition block of `Print::validate`: guarded by
`has_wipe_tower() && ! m_objects.empty()`, it checks uniform nozzle and filament
diameters over the used extruders, a supported G-code flavor, relative extruder
addressing, the ooze-prevention / volumetric-E exclusions and the sequential
multi-material exclusion. The multi-object layer-synchronization checks of
lines 571-616 sit inside the same guard and are not embedded here. -/
def wipe_tower_checks (c : PrintConfig) (extruders : List ℕ) (objects_empty : Bool) :
    Option WipeTowerCheckError :=
  if Print.has_wipe_tower c && !objects_empty then
    let first_nozzle_diam := get_at c.nozzle_diameter (extruders.headD 0)
    let first_filament_diam := get_at c.filament_diameter (extruders.headD 0)
    if extruders.any (fun e =>
        let nozzle_diam := get_at c.nozzle_diameter e
        let filament_diam := get_at c.filament_diameter e
        decide (first_nozzle_diam < nozzle_diam - EPSILON)
        || decide (nozzle_diam + EPSILON < first_nozzle_diam)
        || decide (1 / 10 < |(filament_diam - first_filament_diam) / first_filament_diam|)) then
      some WipeTowerCheckError.NonUniformDiameters
    else if c.gcode_flavor ≠ GCodeFlavor.gcfRepRapSprinter
        ∧ c.gcode_flavor ≠ GCodeFlavor.gcfRepRapFirmware
        ∧ c.gcode_flavor ≠ GCodeFlavor.gcfRepetier
        ∧ c.gcode_flavor ≠ GCodeFlavor.gcfMarlinLegacy
        ∧ c.gcode_flavor ≠ GCodeFlavor.gcfMarlinFirmware
        ∧ c.gcode_flavor ≠ GCodeFlavor.gcfKlipper then
      some WipeTowerCheckError.UnsupportedFlavor
    else if !c.use_relative_e_distances then
      some WipeTowerCheckError.AbsoluteExtruderAddressing
    else if c.ooze_prevention && c.single_extruder_multi_material then
      some WipeTowerCheckError.OozePreventionWithSEMM
    else if c.use_volumetric_e then
      some WipeTowerCheckError.VolumetricE
    else if c.complete_objects && decide (1 < extruders.length) then
      some WipeTowerCheckError.SequentialMultiMaterial
    else
      none
  else
    none

/-- One `LayerTools` record of the tool-ordering collaborator, as consumed read-only
by `Print::_make_wipe_tower`. -/
structure LayerTools where
  print_z : ℚ
  wipe_tower_layer_height : ℚ
  has_wipe_tower : Bool
  wipe_tower_partitions : ℕ
  extruders : List ℕ
deriving Repr

/-- A tool change requested at the wipe tower: one `plan_toolchange` call carrying a
purge volume (the per-layer registration calls with `old_tool == new_tool` and zero
volume at line 1436 are not tool changes and carry no purge). -/
structure PurgeEvent where
  print_z : ℚ
  fromE : ℕ
  toE : ℕ
  volume : ℚ
deriving DecidableEq, Repr

/-- The inner extruder loop of the planning pass of `Print::_make_wipe_tower`
(lines 1437-1454): for each extruder of the layer, when it is newly introduced (or the
first-layer special case fires), request `wipe_volumes[current][next]` minus the
minimal forced purge, let the extrusion-absorption collaborator `mark` take part of
it, add the minimal forced purge back and plan the tool change with the result.
Returns the planned events and the final current extruder. -/
def plan_layer_toolchanges (mark : LayerTools → ℕ → ℕ → ℚ → ℚ)
    (wipe_volumes : ℕ → ℕ → ℚ) (minimal_purge : ℕ → ℚ) (lastE : ℕ)
    (first_layer : Bool) (lt : LayerTools) :
    List ℕ → ℕ → List PurgeEvent × ℕ
  | [], cur => ([], cur)
  | e :: es, cur =>
    if (first_layer && decide (e = lastE)) || decide (e ≠ cur) then
      let volume_to_wipe0 := wipe_volumes cur e - minimal_purge e
      let volume_to_wipe1 := mark lt cur e volume_to_wipe0
      let volume_to_wipe := volume_to_wipe1 + minimal_purge e
      let rest := plan_layer_toolchanges mark wipe_volumes minimal_purge lastE first_layer lt es e
      (⟨lt.print_z, cur, e, volume_to_wipe⟩ :: rest.1, rest.2)
    else
      plan_layer_toolchanges mark wipe_volumes minimal_purge lastE first_layer lt es cur

/-- The layer loop of the planning pass of `Print::_make_wipe_tower`
(lines 1431-1458): layers without wipe-tower activity are skipped; after a processed
layer, planning stops at the last layer or once the next layer needs zero wipe-tower
partitions. The `first_layer` flag holds exactly for the front of the list. -/
def plan_wipe_tower_layers (mark : LayerTools → ℕ → ℕ → ℚ → ℚ)
    (wipe_volumes : ℕ → ℕ → ℚ) (minimal_purge : ℕ → ℚ) (lastE : ℕ) :
    List LayerTools → Bool → ℕ → List PurgeEvent
  | [], _, _ => []
  | lt :: rest, first_layer, cur =>
    if lt.has_wipe_tower then
      let r := plan_layer_toolchanges mark wipe_volumes minimal_purge lastE first_layer lt
                 lt.extruders cur
      match rest with
      | [] => r.1
      | next :: _ =>
        if next.wipe_tower_partitions = 0 then r.1
        else r.1 ++ plan_wipe_tower_layers mark wipe_volumes minimal_purge lastE rest false r.2
    else
      plan_wipe_tower_layers mark wipe_volumes minimal_purge lastE rest false cur

/-- The planning pass of `Print::_make_wipe_tower`: nothing is planned when
`has_wipe_tower()` is false or when the tool-ordering collaborator reports no
wipe-tower activity; otherwise the layers are walked with the current extruder seeded
from the last extruder of `all_extruders` (the priming order). The geometry
generation that follows the planning pass is out of scope here. -/
def Print.make_wipe_tower (c : PrintConfig) (mark : LayerTools → ℕ → ℕ → ℚ → ℚ)
    (wipe_volumes : ℕ → ℕ → ℚ) (tool_ordering_has_wipe_tower : Bool)
    (all_extruders : List ℕ) (layer_tools : List LayerTools) : List PurgeEvent :=
  if !Print.has_wipe_tower c then []
  else if !tool_ordering_has_wipe_tower then []
  else
    plan_wipe_tower_layers mark wipe_volumes
      (get_at c.filament_minimal_purge_on_wipe_tower)
      (all_extruders.getLastD 0) layer_tools true (all_extruders.getLastD 0)

/-! The skirt builder (`Print::_make_skirt`). 2D points use scaled integer
coordinates as in the source; print heights are rationals. -/

/-- The `DraftShield` configuration enumeration. -/
inductive DraftShield
  | dsDisabled
  | dsLimited
  | dsEnabled
deriving DecidableEq, Repr

/-- The slice of the configuration read by the skirt builder. -/
structure SkirtConfig where
  skirts : ℕ
  skirt_height : ℕ
  draft_shield : DraftShield
  skirt_distance : ℚ
  min_skirt_length : ℚ

/-- `Print::has_infinite_skirt`: draft shield enabled and at least one skirt loop. -/
def Print.has_infinite_skirt (c : SkirtConfig) : Bool :=
  decide (c.draft_shield = DraftShield.dsEnabled) && decide (0 < c.skirts)

/-- A 2D point in scaled coordinates. -/
structure Point where
  x : ℤ
  y : ℤ
deriving DecidableEq, Repr

/-- One layer as seen by the skirt builder: its print height and the outer contour
points of its slices (for support layers: the points of the support fills). -/
structure SkirtLayer where
  print_z : ℚ
  contour_points : List Point

/-- One PrintObject as seen by the skirt builder: its layers, support layers and the
instance translations. -/
structure SkirtObject where
  layers : List SkirtLayer
  support_layers : List SkirtLayer
  instances : List Point

/-- The whole job as seen by the skirt builder: the objects, the wipe-tower footprint
corners (`first_layer_wipe_tower_corners`, computed elsewhere) and the brim-derived
boundary points accumulated in `m_first_layer_convex_hull` before the call. -/
structure SkirtJob where
  objects : List SkirtObject
  wipe_tower_corners : List Point
  brim_hull_points : List Point

/-- The skirt height computation of `Print::_make_skirt` (lines 982-988): the maximal
print height of the `min(skirt_height, layer_count)`-th layer over the objects (the
full layer count for an unbounded skirt). -/
def skirt_height_z (c : SkirtConfig) (objs : List SkirtObject) : ℚ :=
  objs.foldl
    (fun acc o =>
      let skirt_layers :=
        if Print.has_infinite_skirt c then o.layers.length
        else min c.skirt_height o.layers.length
      max acc ((o.layers.getD (skirt_layers - 1) ⟨0, []⟩).print_z))
    0

/-- The candidate point collection of `Print::_make_skirt` (lines 990-1022): contour
points of object and support layers up to the skirt height, replicated per instance by
translation, plus the wipe-tower corners, plus the brim boundary unless a draft shield
is requested. -/
def skirt_candidate_points (c : SkirtConfig) (j : SkirtJob) : List Point :=
  let z := skirt_height_z c j.objects
  let object_points := j.objects.flatMap fun o =>
    let base :=
      (o.layers.takeWhile fun l => decide (l.print_z ≤ z)).flatMap
        (fun l => l.contour_points)
      ++ (o.support_layers.takeWhile fun l => decide (l.print_z ≤ z)).flatMap
        (fun l => l.contour_points)
    o.instances.flatMap fun sh => base.map fun p => ⟨p.x + sh.x, p.y + sh.y⟩
  object_points ++ j.wipe_tower_corners
    ++ (if c.draft_shield = DraftShield.dsDisabled then j.brim_hull_points else [])

/-- The skirt loop generation of `Print::_make_skirt` (lines 1062-1103). External
geometry is passed in: `offset_simplify hull distance` stands for
`simplify_polygons(offset(convex_hull, distance, jtRound), scale(0.05))` and `len`
for `Polygon::length`. One iteration: poll cancellation, grow the offset distance by
one spacing, offset the hull (stop when the offset vanishes), emit the front polygon
as a loop, and do the minimum-skirt-length bookkeeping (when the current extruder has
not reached `min_skirt_length`, retrigger the last loop index; otherwise advance to
the next extruder). The source loop can retrigger without bound (spec section 9), so
the iteration is capped by `fuel`; exhaustion returns the loops built so far.
`none` models unwinding by cancellation. -/
def skirt_loop_iter (offset_simplify : List Point → ℚ → List (List Point))
    (len : List Point → ℚ) (e_per_mm : List ℚ) (min_skirt_length spacing : ℚ)
    (hull : List Point) (cancel : ℕ → Bool) :
    ℕ → ℕ → ℕ → ℕ → ℚ → List ℚ → List (List Point) → Option (List (List Point))
  | 0, _, _, _, _, _, acc => some acc
  | _ + 1, 0, _, _, _, _, acc => some acc
  | fuel + 1, i + 1, extruder_idx, poll, distance, extruded, acc =>
    if cancel poll then none
    else
      let distance1 := distance + spacing
      match offset_simplify hull distance1 with
      | [] => some acc
      | loop :: _ =>
        let acc1 := acc ++ [loop]
        if 0 < min_skirt_length then
          let extruded1 := extruded.set extruder_idx
            (extruded.getD extruder_idx 0 + len loop * e_per_mm.getD extruder_idx 0)
          if extruded1.getD extruder_idx 0 < min_skirt_length then
            let i1 := if i + 1 = 1 then i + 1 else i
            skirt_loop_iter offset_simplify len e_per_mm min_skirt_length spacing hull
              cancel fuel i1 extruder_idx (poll + 1) distance1 extruded1 acc1
          else
            let extruder_idx1 :=
              if extruder_idx + 1 < e_per_mm.length then extruder_idx + 1 else extruder_idx
            skirt_loop_iter offset_simplify len e_per_mm min_skirt_length spacing hull
              cancel fuel i extruder_idx1 (poll + 1) distance1 extruded1 acc1
        else
          skirt_loop_iter offset_simplify len e_per_mm min_skirt_length spacing hull
            cancel fuel i extruder_idx (poll + 1) distance1 extruded acc1

/-- `Print::_make_skirt`: collect the candidate points; with fewer than 3 points no
skirt is produced and the function returns normally (before any cancellation poll);
otherwise build the convex hull and generate the loops, reversing them so the
outermost loop is emitted first. `convex_hull`, `offset_simplify` and `len` stand for
the external geometry utilities; `spacing` and `e_per_mm` for the delegated flow
math; `none` models unwinding by a `CancelledError`. -/
def Print.make_skirt (convex_hull : List Point → List Point)
    (offset_simplify : List Point → ℚ → List (List Point)) (len : List Point → ℚ)
    (e_per_mm : List ℚ) (spacing : ℚ) (cancel : ℕ → Bool) (fuel : ℕ)
    (c : SkirtConfig) (j : SkirtJob) : Option (List (List Point)) :=
  let points := skirt_candidate_points c j
  if points.length < 3 then some []
  else if cancel 0 then none
  else
    let hull := convex_hull points
    let n_skirts :=
      if Print.has_infinite_skirt c && decide (c.skirts = 0) then 1 else c.skirts
    let distance := c.skirt_distance - spacing / 2
    match skirt_loop_iter offset_simplify len e_per_mm c.min_skirt_length spacing hull
      cancel fuel n_skirts 0 1 distance (e_per_mm.map fun _ => 0) [] with
    | none => none
    | some loops => some loops.reverse

/-! The per-region extrusion-width check of `Print::validate`
(`validate_extrusion_width`, lines 638-655). -/

/-- A `ConfigOptionFloatOrPercent` value: a plain value or a percentage of a ratio. -/
structure FloatOrPercent where
  value : ℚ
  percent : Bool
deriving DecidableEq, Repr

/-- `ConfigBase::get_abs_value`: resolve a float-or-percent option against a ratio. -/
def get_abs_value (o : FloatOrPercent) (ratio_over : ℚ) : ℚ :=
  if o.percent then o.value * ratio_over / 100 else o.value

/-- The two failure messages of `validate_extrusion_width`: too low to be printable
at the layer height, or excessive for the nozzle diameter. -/
inductive WidthError
  | TooLow
  | Excessive
deriving DecidableEq, Repr

/-- The `validate_extrusion_width` lambda of `Print::validate`: the width is resolved
against the layer height; zero is the always-valid automatic width; a width not
exceeding the layer height is an error; a width reaching three times the maximal
nozzle diameter is an error; `none` means the check passes. -/
def validate_extrusion_width (config_width : FloatOrPercent)
    (layer_height max_nozzle_diameter : ℚ) : Option WidthError :=
  let extrusion_width_min := get_abs_value config_width layer_height
  let extrusion_width_max := get_abs_value config_width layer_height
  if extrusion_width_min = 0 then none
  else if extrusion_width_min ≤ layer_height then some WidthError.TooLow
  else if max_nozzle_diameter * 3 ≤ extrusion_width_max then some WidthError.Excessive
  else none

/-- The cascade invariant of the StepGraph: whenever some job-level step other than
the final export step is Invalidated, the export step is Invalidated as well. -/
def cascade_invariant (st : PrintJobState) : Prop :=
  ∀ p, p ≠ PrintStep.psGCodeExport → st.printState p = StepStatus.Invalidated →
    st.printState PrintStep.psGCodeExport = StepStatus.Invalidated

/-- A sequence of configuration-key batches applied through
`invalidate_state_by_config_options`. -/
def apply_batches (st : PrintJobState) (batches : List (List String)) : PrintJobState :=
  batches.foldl (fun s b => (invalidate_state_by_config_options s b).1) st

/-- A one-object job state with every job-level and entity-level step Done. -/
def allDoneState : PrintJobState :=
  ⟨fun _ => StepStatus.Done, [fun _ => StepStatus.Done]⟩

/-- A two-extruder configuration with the wipe tower enabled. -/
def demoConfig : PrintConfig :=
  ⟨false, true, [2 / 5, 2 / 5], [7 / 4, 7 / 4], [1], GCodeFlavor.gcfMarlinLegacy,
   true, false, false, false, false⟩

/-- A two-extruder configuration in spiral-vase mode (so without a wipe tower). -/
def spiralConfig : PrintConfig :=
  ⟨true, true, [2 / 5, 2 / 5], [7 / 4, 7 / 4], [1], GCodeFlavor.gcfMarlinLegacy,
   true, false, false, false, false⟩

/-- A single wipe-tower layer using both extruders. -/
def demoLayer : LayerTools :=
  ⟨1, 1 / 5, true, 1, [0, 1]⟩

/-! Shared lemmas. -/

/-- Two boolean expressions equal as propositions are equal as booleans. -/
theorem bool_eq_of_iff {a b : Bool} (h : a = true ↔ b = true) : a = b := by
  cases a <;> cases b <;> simp_all

/-- A property preserved by every fold step is preserved by the whole fold. -/
theorem foldl_preserves {α : Type _} {β : Type _} (P : α → Prop) (f : α → β → α)
    (h : ∀ a b, P a → P (f a b)) : ∀ (l : List β) (a : α), P a → P (l.foldl f a)
  | [], _, ha => ha
  | b :: l, a, ha => foldl_preserves P f h l (f a b) (h a b ha)

/-- Decomposition of the classification loop: it appends the per-key step sets in
order, applies the unknown-key fallback to the job state exactly when some key is
unknown, and accumulates the fallback's change flag. -/
theorem classify_fold_eq (keys : List String) (S : List PrintStep)
    (O : List PrintObjectStep) (st : PrintJobState) (b : Bool) :
    classify_fold ⟨S, O, st, b⟩ keys =
      ⟨S ++ keys.flatMap key_steps, O ++ keys.flatMap key_osteps,
       if keys.any key_unknown then ⟨fun _ => StepStatus.Invalidated, st.objectStates⟩ else st,
       b || (keys.any key_unknown && anyNonInvalid st)⟩ := by
  induction keys generalizing S O st b with
  | nil => simp [classify_fold]
  | cons k ks ih =>
    cases hk : classify_key k with
    | some so =>
      simp only [classify_fold, hk]
      rw [ih]
      simp [key_steps, key_osteps, key_unknown, hk]
    | none =>
      simp only [classify_fold, hk, invalidate_all_steps]
      rw [ih]
      simp [key_steps, key_osteps, key_unknown, hk, anyNonInvalid, allPrintSteps,
        Bool.or_assoc]

/-- Canonical form of `invalidate_state_by_config_options` on a nonempty batch. -/
theorem invalidate_canonical (st : PrintJobState) (keys : List String)
    (h : keys.isEmpty = false) :
    invalidate_state_by_config_options st keys =
      (sort_remove_duplicates_ostep (keys.flatMap key_osteps)).foldl apply_object_step
        ((sort_remove_duplicates (keys.flatMap key_steps)).foldl apply_print_step
          ((if keys.any key_unknown then ⟨fun _ => StepStatus.Invalidated, st.objectStates⟩ else st),
           keys.any key_unknown && anyNonInvalid st)) := by
  unfold invalidate_state_by_config_options
  rw [h]
  simp only [Bool.false_eq_true, if_false]
  rw [classify_fold_eq]
  simp

/-! Claim theorems. -/

/-- C9: the empty batch of changed configuration keys returns false and leaves every
job-level and entity-level step status unchanged. -/
theorem invalidate_empty_batch (st : PrintJobState) :
    invalidate_state_by_config_options st [] = (st, false) := rfl

/-- C4: `Print::is_step_done(step)` is true exactly when the job has at least one
object and every object reports the step Done; an empty job is never done. -/
theorem print_is_step_done_iff (st : PrintJobState) (step : PrintObjectStep) :
    Print.is_step_done st step = true ↔
      st.objectStates ≠ [] ∧ ∀ o ∈ st.objectStates, o step = StepStatus.Done := by
  unfold Print.is_step_done
  rcases st with ⟨ps, os⟩
  rcases os with _ | ⟨o, os⟩ <;> simp [List.all_eq_true]

/-- Witness for C4: a one-object job with the step Done on it is done. -/
theorem print_is_step_done_iff_witness :
    Print.is_step_done ⟨fun _ => StepStatus.Done, [fun _ => StepStatus.Done]⟩
      PrintObjectStep.posSlice = true :=
  (print_is_step_done_iff _ _).mpr ⟨by simp, by simp⟩

/-- C6: the per-region extrusion-width check accepts a zero-valued option as
automatic, rejects a nonzero width not exceeding the layer height, rejects a nonzero
width exceeding three times the maximal nozzle diameter, and accepts every width
strictly between the layer height and three nozzle diameters. -/
theorem validate_extrusion_width_spec (w : FloatOrPercent) (lh d : ℚ) :
    (w.value = 0 → validate_extrusion_width w lh d = none)
    ∧ (get_abs_value w lh ≠ 0 → get_abs_value w lh ≤ lh →
        validate_extrusion_width w lh d = some WidthError.TooLow)
    ∧ (get_abs_value w lh ≠ 0 → d * 3 < get_abs_value w lh →
        (validate_extrusion_width w lh d).isSome = true)
    ∧ (lh < get_abs_value w lh → get_abs_value w lh < d * 3 →
        validate_extrusion_width w lh d = none) := by
  refine ⟨?_, ?_, ?_, ?_⟩
  · intro h0
    rcases w with ⟨v, pc⟩
    simp only at h0
    subst h0
    cases pc <;> simp [validate_extrusion_width, get_abs_value]
  · intro hne hle
    simp only [validate_extrusion_width]
    rw [if_neg hne, if_pos hle]
  · intro hne hgt
    simp only [validate_extrusion_width]
    rw [if_neg hne]
    by_cases h2 : get_abs_value w lh ≤ lh
    · rw [if_pos h2]
      rfl
    · rw [if_neg h2, if_pos (le_of_lt hgt)]
      rfl
  · intro hlo hhi
    simp only [validate_extrusion_width]
    by_cases h1 : get_abs_value w lh = 0
    · rw [if_pos h1]
    · rw [if_neg h1, if_neg (not_le.mpr hlo), if_neg (not_le.mpr hhi)]

/-- Witness for C6: a 0.1 mm width at 0.2 mm layer height with a 0.4 mm nozzle is
rejected as too low. -/
theorem validate_extrusion_width_spec_witness :
    validate_extrusion_width ⟨1 / 10, false⟩ (1 / 5) (2 / 5) = some WidthError.TooLow :=
  (validate_extrusion_width_spec ⟨1 / 10, false⟩ (1 / 5) (2 / 5)).2.1
    (by norm_num [get_abs_value]) (by norm_num [get_abs_value])

/-- `Print::invalidate_step` always leaves the export step Invalidated. -/
theorem invalidate_step_export (ps : PrintStep → StepStatus) (step : PrintStep) :
    (Print.invalidate_step ps step).1 PrintStep.psGCodeExport = StepStatus.Invalidated := by
  unfold Print.invalidate_step PrintState.invalidate
  by_cases h : step = PrintStep.psGCodeExport
  · subst h
    simp
  · simp [h]

/-- Pointwise, `Print::invalidate_step` either invalidates a step or leaves it. -/
theorem invalidate_step_apply (ps : PrintStep → StepStatus) (step p : PrintStep) :
    (Print.invalidate_step ps step).1 p = StepStatus.Invalidated ∨
      (Print.invalidate_step ps step).1 p = ps p := by
  unfold Print.invalidate_step PrintState.invalidate
  by_cases h : step = PrintStep.psGCodeExport <;>
    by_cases h2 : p = PrintStep.psGCodeExport <;>
      by_cases h3 : p = step <;> simp [h, h2, h3]

/-- Applying a job-level step leaves the export step Invalidated, so the cascade
invariant holds afterwards. -/
theorem cascade_after_print_step (a : PrintJobState × Bool) (step : PrintStep) :
    cascade_invariant (apply_print_step a step).1 := by
  intro p hp hpi
  show (Print.invalidate_step a.1.printState step).1 PrintStep.psGCodeExport
      = StepStatus.Invalidated
  exact invalidate_step_export _ _

/-- Applying an entity-level step to all objects preserves the cascade invariant. -/
theorem cascade_preserved_object (a : PrintJobState × Bool) (ostep : PrintObjectStep)
    (h : cascade_invariant a.1) : cascade_invariant (apply_object_step a ostep).1 := by
  unfold apply_object_step
  refine foldl_preserves (fun b => cascade_invariant b.1) _ ?_ _ a h
  intro b i _ p hp hpi
  show (PrintObject.invalidate_step b.1 i ostep).1.printState PrintStep.psGCodeExport
      = StepStatus.Invalidated
  unfold PrintObject.invalidate_step
  simp

/-- One configuration batch preserves the cascade invariant. -/
theorem cascade_preserved_batch (st : PrintJobState) (keys : List String)
    (h : cascade_invariant st) :
    cascade_invariant (invalidate_state_by_config_options st keys).1 := by
  by_cases hk : keys.isEmpty
  · have : keys = [] := List.isEmpty_iff.mp hk
    subst this
    exact h
  · have hk2 : keys.isEmpty = false := by
      rcases keys with _ | _
      · exact absurd rfl hk
      · rfl
    rw [invalidate_canonical st keys hk2]
    refine foldl_preserves (fun a => cascade_invariant a.1) apply_object_step
      (fun a b ha => cascade_preserved_object a b ha) _ _ ?_
    refine foldl_preserves (fun a => cascade_invariant a.1) apply_print_step
      (fun a b _ => cascade_after_print_step a b) _ _ ?_
    by_cases hu : keys.any key_unknown
    · rw [hu]
      intro p hp hpi
      rfl
    · rw [Bool.not_eq_true] at hu
      rw [hu]
      exact h

/-- C1: invalidating any job-level step other than the final export step through
`Print::invalidate_step` also invalidates the export step, and the cascade invariant
is preserved by every sequence of configuration-key batches applied through
`invalidate_state_by_config_options`. -/
theorem print_invalidate_step_cascade :
    (∀ (ps : PrintStep → StepStatus) (step : PrintStep),
        step ≠ PrintStep.psGCodeExport →
        (Print.invalidate_step ps step).1 PrintStep.psGCodeExport = StepStatus.Invalidated)
    ∧ ∀ (st : PrintJobState), cascade_invariant st → ∀ (batches : List (List String)),
        cascade_invariant (apply_batches st batches) := by
  constructor
  · intro ps step _
    exact invalidate_step_export ps step
  · intro st h batches
    induction batches generalizing st with
    | nil => exact h
    | cons b bs ih => exact ih _ (cascade_preserved_batch st b h)

/-- Witness for C1: invalidating the skirt/brim step on an all-Done job state leaves
the export step Invalidated, and a batch sequence preserves the invariant. -/
theorem print_invalidate_step_cascade_witness :
    ((Print.invalidate_step (fun _ => StepStatus.Done) PrintStep.psSkirtBrim).1
        PrintStep.psGCodeExport = StepStatus.Invalidated)
    ∧ cascade_invariant (apply_batches allDoneState [["skirts"]]) :=
  ⟨print_invalidate_step_cascade.1 (fun _ => StepStatus.Done) PrintStep.psSkirtBrim
      (by decide),
   print_invalidate_step_cascade.2 allDoneState (fun _ _ hpi => nomatch hpi) [["skirts"]]⟩

/-- A key of the `steps_gcode` set classifies to the export step alone. -/
theorem classify_key_gcode (k : String) (h : steps_gcode.contains k = true) :
    classify_key k = some ([PrintStep.psGCodeExport], []) := by
  unfold classify_key
  rw [if_pos h]

/-- C3: a nonempty batch of G-code-only keys invalidates exactly the export step:
every other job-level step and every entity-level step of every object keeps its
status. -/
theorem gcode_only_batch (st : PrintJobState) (keys : List String) (hne : keys ≠ [])
    (hall : ∀ k ∈ keys, steps_gcode.contains k = true) :
    ((invalidate_state_by_config_options st keys).1.printState PrintStep.psGCodeExport
        = StepStatus.Invalidated)
    ∧ (∀ p, p ≠ PrintStep.psGCodeExport →
        (invalidate_state_by_config_options st keys).1.printState p = st.printState p)
    ∧ (invalidate_state_by_config_options st keys).1.objectStates = st.objectStates := by
  have hempty : keys.isEmpty = false := by
    rcases keys with _ | _
    · exact absurd rfl hne
    · rfl
  have hcls : ∀ k ∈ keys, classify_key k = some ([PrintStep.psGCodeExport], []) :=
    fun k hk => classify_key_gcode k (hall k hk)
  have hunk : keys.any key_unknown = false := by
    rw [List.any_eq_false]
    intro k hk
    simp [key_unknown, hcls k hk]
  have hmem : ∀ s : PrintStep,
      (s ∈ keys.flatMap key_steps ↔ s = PrintStep.psGCodeExport) := by
    intro s
    simp only [List.mem_flatMap]
    constructor
    · rintro ⟨k, hk, hs⟩
      simp [key_steps, hcls k hk] at hs
      exact hs
    · rintro rfl
      rcases keys with _ | ⟨k, ks⟩
      · exact absurd rfl hne
      · exact ⟨k, by simp, by simp [key_steps, hcls k (by simp)]⟩
  have hsorted : sort_remove_duplicates (keys.flatMap key_steps)
      = [PrintStep.psGCodeExport] := by
    unfold sort_remove_duplicates allPrintSteps
    simp [List.filter, hmem]
  have hosteps : keys.flatMap key_osteps = [] := by
    refine List.eq_nil_iff_forall_not_mem.mpr ?_
    intro x hx
    simp only [List.mem_flatMap] at hx
    rcases hx with ⟨k, hk, hx⟩
    simp [key_osteps, hcls k hk] at hx
  have hsorted2 : sort_remove_duplicates_ostep (keys.flatMap key_osteps) = [] := by
    rw [hosteps]
    rfl
  rw [invalidate_canonical st keys hempty, hsorted, hsorted2, hunk]
  refine ⟨?_, ?_, ?_⟩
  · simp [apply_print_step, Print.invalidate_step, PrintState.invalidate]
  · intro p hp
    simp [apply_print_step, Print.invalidate_step, PrintState.invalidate, hp]
  · rfl

/-- Witness for C3: changing the bed temperature on an all-Done one-object job
invalidates export and leaves the object's step states untouched. -/
theorem gcode_only_batch_witness :
    ((invalidate_state_by_config_options allDoneState ["bed_temperature"]).1.printState
        PrintStep.psGCodeExport = StepStatus.Invalidated)
    ∧ (invalidate_state_by_config_options allDoneState ["bed_temperature"]).1.objectStates
        = allDoneState.objectStates := by
  have h := gcode_only_batch allDoneState ["bed_temperature"] (by simp)
    (by intro k hk
        simp only [List.mem_singleton] at hk
        subst hk
        rfl)
  exact ⟨h.1, h.2.2⟩

/-- Applying a job-level step keeps a fully invalidated job state fully invalidated. -/
theorem all_invalid_preserved_print (a : PrintJobState × Bool) (step : PrintStep)
    (h : ∀ p, a.1.printState p = StepStatus.Invalidated) :
    ∀ p, (apply_print_step a step).1.printState p = StepStatus.Invalidated := by
  intro p
  show (Print.invalidate_step a.1.printState step).1 p = StepStatus.Invalidated
  rcases invalidate_step_apply a.1.printState step p with hc | hc
  · exact hc
  · exact hc.trans (h p)

/-- Applying an entity-level step keeps a fully invalidated job state fully
invalidated. -/
theorem all_invalid_preserved_object (a : PrintJobState × Bool) (ostep : PrintObjectStep)
    (h : ∀ p, a.1.printState p = StepStatus.Invalidated) :
    ∀ p, (apply_object_step a ostep).1.printState p = StepStatus.Invalidated := by
  unfold apply_object_step
  refine foldl_preserves (fun b => ∀ p, b.1.printState p = StepStatus.Invalidated)
    _ ?_ _ a h
  intro b i hb p
  show (PrintObject.invalidate_step b.1 i ostep).1.printState p = StepStatus.Invalidated
  unfold PrintObject.invalidate_step
  by_cases hp : p = PrintStep.psGCodeExport <;> simp [hp, hb p]

/-- C2 (amended): a batch containing at least one unrecognized key invalidates every
job-level step; the entity-level step states are touched only by the recognized keys
of the batch — in particular a batch of unknown keys alone leaves them unchanged. -/
theorem unknown_key_batch (st : PrintJobState) (keys : List String)
    (hu : ∃ k ∈ keys, key_unknown k = true) :
    (∀ p, (invalidate_state_by_config_options st keys).1.printState p
        = StepStatus.Invalidated)
    ∧ ((∀ k ∈ keys, key_unknown k = true) →
        (invalidate_state_by_config_options st keys).1.objectStates = st.objectStates) := by
  have hempty : keys.isEmpty = false := by
    rcases keys with _ | _
    · rcases hu with ⟨k, hk, _⟩
      exact absurd hk (by simp)
    · rfl
  have hany : keys.any key_unknown = true := List.any_eq_true.mpr hu
  rw [invalidate_canonical st keys hempty, hany]
  constructor
  · refine foldl_preserves (fun a => ∀ p, a.1.printState p = StepStatus.Invalidated)
      apply_object_step (fun a b ha => all_invalid_preserved_object a b ha) _ _ ?_
    refine foldl_preserves (fun a => ∀ p, a.1.printState p = StepStatus.Invalidated)
      apply_print_step (fun a b ha => all_invalid_preserved_print a b ha) _ _ ?_
    intro p
    rfl
  · intro hall
    have hsteps : keys.flatMap key_steps = [] := by
      refine List.eq_nil_iff_forall_not_mem.mpr ?_
      intro x hx
      simp only [List.mem_flatMap] at hx
      rcases hx with ⟨k, hk, hx⟩
      have := hall k hk
      rw [key_unknown, Option.isNone_iff_eq_none] at this
      simp [key_steps, this] at hx
    have hosteps : keys.flatMap key_osteps = [] := by
      refine List.eq_nil_iff_forall_not_mem.mpr ?_
      intro x hx
      simp only [List.mem_flatMap] at hx
      rcases hx with ⟨k, hk, hx⟩
      have := hall k hk
      rw [key_unknown, Option.isNone_iff_eq_none] at this
      simp [key_osteps, this] at hx
    rw [hsteps, hosteps]
    rfl

/-- Counterexample for C2 as stated: on an all-Done one-object job, a batch holding
only an unrecognized key leaves the object's slicing step Done — the fallback does
not invalidate the entity-level steps. -/
theorem unknown_key_counterexample :
    ((invalidate_state_by_config_options allDoneState ["made_up_future_key"]).1.objectStates.getD
        0 (fun _ => StepStatus.Invalidated)) PrintObjectStep.posSlice = StepStatus.Done := by
  rfl

/-- Witness for C2 (amended): the unknown-key batch invalidates the wipe-tower step
and leaves the object step states unchanged. -/
theorem unknown_key_batch_witness :
    ((invalidate_state_by_config_options allDoneState ["made_up_future_key"]).1.printState
        PrintStep.psWipeTower = StepStatus.Invalidated)
    ∧ (invalidate_state_by_config_options allDoneState ["made_up_future_key"]).1.objectStates
        = allDoneState.objectStates := by
  have h := unknown_key_batch allDoneState ["made_up_future_key"]
    ⟨"made_up_future_key", by simp, by rfl⟩
  refine ⟨h.1 PrintStep.psWipeTower, h.2 ?_⟩
  intro k hk
  simp only [List.mem_singleton] at hk
  subst hk
  rfl

/-- C8: two batches holding the same set of keys — in any order, duplicates allowed —
produce the same invalidated state and the same boolean. -/
theorem batch_order_independent (st : PrintJobState) (l1 l2 : List String)
    (h : ∀ k, k ∈ l1 ↔ k ∈ l2) :
    invalidate_state_by_config_options st l1 = invalidate_state_by_config_options st l2 := by
  by_cases he : l1.isEmpty
  · have e1 : l1 = [] := List.isEmpty_iff.mp he
    have e2 : l2 = [] := by
      refine List.eq_nil_iff_forall_not_mem.mpr ?_
      intro k hk
      have := (h k).2 hk
      rw [e1] at this
      simp at this
    rw [e1, e2]
  · have h1 : l1.isEmpty = false := by
      rcases l1 with _ | _
      · exact absurd rfl he
      · rfl
    have h2 : l2.isEmpty = false := by
      rcases hl2 : l2 with _ | _
      · rcases l1 with _ | ⟨b, t⟩
        · exact absurd rfl he
        · have := (h b).1 (by simp)
          rw [hl2] at this
          simp at this
      · rfl
    rw [invalidate_canonical st l1 h1, invalidate_canonical st l2 h2]
    have hu : l1.any key_unknown = l2.any key_unknown := by
      refine bool_eq_of_iff ?_
      simp only [List.any_eq_true]
      exact ⟨fun ⟨k, hk, hp⟩ => ⟨k, (h k).1 hk, hp⟩, fun ⟨k, hk, hp⟩ => ⟨k, (h k).2 hk, hp⟩⟩
    have hsort : sort_remove_duplicates (l1.flatMap key_steps)
        = sort_remove_duplicates (l2.flatMap key_steps) := by
      unfold sort_remove_duplicates
      refine List.filter_congr ?_
      intro s _
      refine decide_eq_decide.mpr ?_
      simp only [List.mem_flatMap]
      exact ⟨fun ⟨k, hk, hs⟩ => ⟨k, (h k).1 hk, hs⟩, fun ⟨k, hk, hs⟩ => ⟨k, (h k).2 hk, hs⟩⟩
    have hsort2 : sort_remove_duplicates_ostep (l1.flatMap key_osteps)
        = sort_remove_duplicates_ostep (l2.flatMap key_osteps) := by
      unfold sort_remove_duplicates_ostep
      refine List.filter_congr ?_
      intro s _
      refine decide_eq_decide.mpr ?_
      simp only [List.mem_flatMap]
      exact ⟨fun ⟨k, hk, hs⟩ => ⟨k, (h k).1 hk, hs⟩, fun ⟨k, hk, hs⟩ => ⟨k, (h k).2 hk, hs⟩⟩
    rw [hu, hsort, hsort2]

/-- Witness for C8: reordering and duplicating a two-key batch changes nothing. -/
theorem batch_order_independent_witness :
    invalidate_state_by_config_options allDoneState ["skirts", "bed_temperature"]
      = invalidate_state_by_config_options allDoneState
          ["bed_temperature", "skirts", "skirts"] := by
  refine batch_order_independent allDoneState _ _ ?_
  intro k
  simp only [List.mem_cons, List.not_mem_nil, or_false]
  tauto

/-- Every tool change produced by the inner extruder loop carries at least the
minimal forced purge of the incoming extruder. -/
theorem plan_layer_toolchanges_min (mark : LayerTools → ℕ → ℕ → ℚ → ℚ)
    (wv : ℕ → ℕ → ℚ) (mp : ℕ → ℚ) (lastE : ℕ) (fl : Bool) (lt : LayerTools)
    (hmark : ∀ lt a b v, 0 ≤ mark lt a b v) (_hmp : ∀ e, 0 ≤ mp e) :
    ∀ (es : List ℕ) (cur : ℕ) (ev : PurgeEvent),
      ev ∈ (plan_layer_toolchanges mark wv mp lastE fl lt es cur).1 →
      mp ev.toE ≤ ev.volume := by
  intro es
  induction es with
  | nil =>
    intro cur ev hmem
    simp [plan_layer_toolchanges] at hmem
  | cons e es ih =>
    intro cur ev hmem
    unfold plan_layer_toolchanges at hmem
    by_cases hc : ((fl && decide (e = lastE)) || decide (e ≠ cur)) = true
    · rw [if_pos hc] at hmem
      simp only [List.mem_cons] at hmem
      rcases hmem with rfl | hmem
      · have h0 := hmark lt cur e (wv cur e - mp e)
        simp only
        linarith
      · exact ih e ev hmem
    · rw [if_neg hc] at hmem
      exact ih cur ev hmem

/-- Every tool change produced by the layer loop carries at least the minimal forced
purge of the incoming extruder. -/
theorem plan_wipe_tower_layers_min (mark : LayerTools → ℕ → ℕ → ℚ → ℚ)
    (wv : ℕ → ℕ → ℚ) (mp : ℕ → ℚ) (lastE : ℕ)
    (hmark : ∀ lt a b v, 0 ≤ mark lt a b v) (hmp : ∀ e, 0 ≤ mp e) :
    ∀ (lts : List LayerTools) (fl : Bool) (cur : ℕ) (ev : PurgeEvent),
      ev ∈ plan_wipe_tower_layers mark wv mp lastE lts fl cur →
      mp ev.toE ≤ ev.volume := by
  intro lts
  induction lts with
  | nil =>
    intro fl cur ev hmem
    simp [plan_wipe_tower_layers] at hmem
  | cons lt rest ih =>
    intro fl cur ev hmem
    unfold plan_wipe_tower_layers at hmem
    by_cases hw : lt.has_wipe_tower = true
    · rw [if_pos hw] at hmem
      rcases rest with _ | ⟨next, rest2⟩
      · simp only at hmem
        exact plan_layer_toolchanges_min mark wv mp lastE fl lt hmark hmp _ _ ev hmem
      · simp only at hmem
        by_cases hp : next.wipe_tower_partitions = 0
        · rw [if_pos hp] at hmem
          exact plan_layer_toolchanges_min mark wv mp lastE fl lt hmark hmp _ _ ev hmem
        · rw [if_neg hp] at hmem
          rcases List.mem_append.mp hmem with hmem | hmem
          · exact plan_layer_toolchanges_min mark wv mp lastE fl lt hmark hmp _ _ ev hmem
          · exact ih false _ ev hmem
    · rw [if_neg hw] at hmem
      exact ih false cur ev hmem

/-- C5: every purge volume scheduled at the wipe tower is at least the configured
minimal forced purge of the incoming extruder, whatever the extrusion-absorption
collaborator reports. -/
theorem wipe_tower_min_purge (c : PrintConfig) (mark : LayerTools → ℕ → ℕ → ℚ → ℚ)
    (wv : ℕ → ℕ → ℚ) (tohwt : Bool) (all_ex : List ℕ) (lts : List LayerTools)
    (hmark : ∀ lt a b v, 0 ≤ mark lt a b v)
    (hmp : ∀ e, 0 ≤ get_at c.filament_minimal_purge_on_wipe_tower e) :
    ∀ ev ∈ Print.make_wipe_tower c mark wv tohwt all_ex lts,
      get_at c.filament_minimal_purge_on_wipe_tower ev.toE ≤ ev.volume := by
  intro ev hmem
  unfold Print.make_wipe_tower at hmem
  by_cases h1 : (!Print.has_wipe_tower c) = true
  · rw [if_pos h1] at hmem
    simp at hmem
  · rw [if_neg h1] at hmem
    by_cases h2 : (!tohwt) = true
    · rw [if_pos h2] at hmem
      simp at hmem
    · rw [if_neg h2] at hmem
      exact plan_wipe_tower_layers_min mark wv _ _ hmark hmp lts true _ ev hmem

/-- Witness for C5: with an absorption collaborator that absorbs everything, the
first planned tool change still purges the full minimal amount. -/
theorem wipe_tower_min_purge_witness :
    ((⟨1, 1, 0, 1⟩ : PurgeEvent) ∈
      Print.make_wipe_tower demoConfig (fun _ _ _ _ => 0) (fun _ _ => 5) true [0, 1]
        [demoLayer])
    ∧ get_at demoConfig.filament_minimal_purge_on_wipe_tower
        (⟨1, 1, 0, (1 : ℚ)⟩ : PurgeEvent).toE ≤ (⟨1, 1, 0, (1 : ℚ)⟩ : PurgeEvent).volume := by
  have hmp : ∀ e, 0 ≤ get_at demoConfig.filament_minimal_purge_on_wipe_tower e := by
    intro e
    show 0 ≤ get_at [1] e
    unfold get_at
    rcases Nat.lt_or_ge e 1 with h | h
    · rw [if_pos (by simpa using h), Nat.lt_one_iff.mp h]
      norm_num
    · rw [if_neg (by simp only [List.length_singleton]; omega)]
      norm_num
  have hmem : (⟨1, 1, 0, 1⟩ : PurgeEvent) ∈
      Print.make_wipe_tower demoConfig (fun _ _ _ _ => 0) (fun _ _ => 5) true [0, 1]
        [demoLayer] := by
    show (⟨1, 1, 0, 1⟩ : PurgeEvent) ∈
      plan_wipe_tower_layers (fun _ _ _ _ => 0) (fun _ _ => 5)
        (get_at demoConfig.filament_minimal_purge_on_wipe_tower) 1 [demoLayer] true 1
    simp only [plan_wipe_tower_layers, demoLayer, plan_layer_toolchanges]
    norm_num [get_at, demoConfig]
  exact ⟨hmem,
    wipe_tower_min_purge demoConfig (fun _ _ _ _ => 0) (fun _ _ => 5) true [0, 1]
      [demoLayer] (fun _ _ _ _ => le_refl 0) hmp ⟨1, 1, 0, 1⟩ hmem⟩

/-- C7: when the skirt candidate point set has fewer than three points, the skirt
builder produces zero loops and returns normally — before any cancellation poll, so
no error is raised. -/
theorem make_skirt_few_points (convex_hull : List Point → List Point)
    (offset_simplify : List Point → ℚ → List (List Point)) (len : List Point → ℚ)
    (e_per_mm : List ℚ) (spacing : ℚ) (cancel : ℕ → Bool) (fuel : ℕ)
    (c : SkirtConfig) (j : SkirtJob)
    (h : (skirt_candidate_points c j).length < 3) :
    Print.make_skirt convex_hull offset_simplify len e_per_mm spacing cancel fuel c j
      = some [] := by
  unfold Print.make_skirt
  rw [if_pos h]

/-- Witness for C7: an empty job yields no candidate points, and even with the
cancellation signal raised the builder returns zero loops without unwinding. -/
theorem make_skirt_few_points_witness :
    Print.make_skirt (fun ps => ps) (fun _ _ => []) (fun _ => 0) [] 0 (fun _ => true) 5
      ⟨1, 1, DraftShield.dsDisabled, 0, 0⟩ ⟨[], [], []⟩ = some [] :=
  make_skirt_few_points _ _ _ _ _ _ _ _ _ (by decide)

/-- C10: `Print::has_wipe_tower` holds exactly when spiral vase is off, the wipe
tower is enabled and more than one nozzle diameter is configured; when it does not
hold, the wipe-tower precondition block of `Print::validate` checks nothing and
`_make_wipe_tower` plans nothing. -/
theorem has_wipe_tower_spec (c : PrintConfig) (extruders : List ℕ) (objects_empty : Bool)
    (mark : LayerTools → ℕ → ℕ → ℚ → ℚ) (wv : ℕ → ℕ → ℚ) (tohwt : Bool)
    (all_ex : List ℕ) (lts : List LayerTools) :
    (Print.has_wipe_tower c = true ↔
      c.spiral_vase = false ∧ c.wipe_tower = true ∧ 1 < c.nozzle_diameter.length)
    ∧ (Print.has_wipe_tower c = false →
        wipe_tower_checks c extruders objects_empty = none)
    ∧ (Print.has_wipe_tower c = false →
        Print.make_wipe_tower c mark wv tohwt all_ex lts = []) := by
  refine ⟨?_, ?_, ?_⟩
  · unfold Print.has_wipe_tower
    simp [and_assoc]
  · intro hf
    unfold wipe_tower_checks
    rw [hf]
    simp
  · intro hf
    unfold Print.make_wipe_tower
    rw [hf]
    simp

/-- Witness for C10: in spiral-vase mode there is no wipe tower, so the validate
block checks nothing and the planner plans nothing. -/
theorem has_wipe_tower_spec_witness :
    wipe_tower_checks spiralConfig [0, 1] false = none
    ∧ Print.make_wipe_tower spiralConfig (fun _ _ _ v => v) (fun _ _ => 0) true [0, 1]
        [demoLayer] = [] := by
  have h := has_wipe_tower_spec spiralConfig [0, 1] false (fun _ _ _ v => v)
    (fun _ _ => 0) true [0, 1] [demoLayer]
  exact ⟨h.2.1 rfl, h.2.2 rfl⟩

end Slic3r
